import Mathlib

/-
Verification of the request-execution engine of the arnak board-game-data
client (src/api.rs): the retry loop of send_request, the two-step decoding
of execute_request, and the request construction of build_request.

The embedding is a shallow one: the network outcome of each attempt is modelled
as a value supplied by an environment function from attempt index to
outcome, the retry loop becomes a recursive function over the bounded retry
counter, and fallible decoding becomes functions into Except. Sleeping is
recorded in a trace of delays in milliseconds.
-/

namespace Arnak

/-- An HTTP response as seen after one successful transmission: status code
and body text (the body is what `response.text()` yields). -/
structure HttpResponse where
  status : Nat
  body : String
  deriving DecidableEq, Repr

/-- Outcome of one physical send attempt, as produced by the network and
the server: either a transport-level failure of the send itself, or a
completed HTTP response. -/
inductive AttemptResult where
  | transportError : AttemptResult
  | response : HttpResponse → AttemptResult
  deriving DecidableEq, Repr

/-- The underlying reqwest error carried by the HttpError variant: either a
transport failure from send, or the status error produced by
`error_for_status` for 4xx/5xx statuses. -/
inductive ReqwestError where
  | transport : ReqwestError
  | statusError : Nat → ReqwestError
  deriving DecidableEq, Repr

/-- Modelled from the spec: `ApiXmlErrors` is declared in crate code that
is not under src/ (it is imported in src/api.rs from the crate root). The
spec describes it as the API Error Envelope, a structured payload encoding
a business-level failure such as an invalid username; its exact field
layout is irrelevant to the claims, only whether a body decodes as it. -/
structure ApiXmlErrors where
  errors : List String
  deriving DecidableEq, Repr

/-- The Error enum of the crate as used by src/api.rs. The variants HttpError,
MaxRetryError and UnexpectedResponseError appear literally in api.rs; the
variant produced by `api_error.into()` is declared outside src/ and is
modelled from the spec as the Business/API Error carrying the decoded
envelope. Decode diagnostics are modelled as strings. -/
inductive Error where
  | HttpError : ReqwestError → Error
  | MaxRetryError : Nat → Error
  | UnexpectedResponseError : String → Error
  | ApiXmlError : ApiXmlErrors → Error
  deriving DecidableEq, Repr

/-- The reqwest function `error_for_status`: a status in the client-error range
(400-499) or the server-error range (500-599) turns the response into an
error; any other status passes the response through unchanged. -/
def errorForStatus (r : HttpResponse) : Except ReqwestError HttpResponse :=
  if 400 ≤ r.status ∧ r.status ≤ 599 then .error (.statusError r.status) else .ok r

/-- A reqwest RequestBuilder as far as the engine observes it: method, the
formatted URL, the ordered query pairs, and whether `try_clone` succeeds
(for a GET with only query parameters it always does; it fails only for
requests with a streaming body, which this crate never builds). -/
structure RequestBuilder where
  method : String
  url : String
  query : List (String × String)
  cloneable : Bool
  deriving DecidableEq, Repr

/-- build_request from src/api.rs: a GET whose URL is the base URL, a
literal slash, and the endpoint, with the given query pairs attached. -/
def build_request (base_url : String) (endpoint : String)
    (query : List (String × String)) : RequestBuilder :=
  { method := "GET"
    url := base_url ++ "/" ++ endpoint
    query := query
    cloneable := true }

/-- Result of send_request: a panic from the expect on try_clone, a raw
successful response, or a classified error. -/
inductive SendResult where
  | panicked : SendResult
  | ok : HttpResponse → SendResult
  | err : Error → SendResult
  deriving DecidableEq, Repr

/-- Observable trace of one send_request call: how many physical send
attempts were made, the sleep delays in milliseconds in order, and the
final result. -/
structure SendTrace where
  attempts : Nat
  sleeps : List Nat
  result : SendResult
  deriving DecidableEq, Repr

/-- The loop body of send_request from src/api.rs, with the environment
`responses` giving the outcome of each physical attempt by index. Each
iteration clones the request (panicking if that fails), sends it, breaks
with HttpError on a transport failure, and on status 202 either breaks
with MaxRetryError once retries reached 4 or sleeps 200ms times 2 to the
retries and goes round again; any other status goes through
error_for_status. -/
def sendRequestAux (request : RequestBuilder) (responses : Nat → AttemptResult)
    (attempt : Nat) (retries : Nat) : SendTrace :=
  if request.cloneable = false then
    ⟨0, [], .panicked⟩
  else
    match responses attempt with
    | .transportError => ⟨1, [], .err (.HttpError .transport)⟩
    | .response r =>
      if r.status = 202 then
        if h : 4 ≤ retries then
          ⟨1, [], .err (.MaxRetryError retries)⟩
        else
          let rest := sendRequestAux request responses (attempt + 1) (retries + 1)
          ⟨1 + rest.attempts, 200 * 2 ^ retries :: rest.sleeps, rest.result⟩
      else
        match errorForStatus r with
        | .error e => ⟨1, [], .err (.HttpError e)⟩
        | .ok res => ⟨1, [], .ok res⟩
termination_by 4 - retries
decreasing_by omega

/-- send_request from src/api.rs: the loop entered with the retry counter
initialised to 0 and the first attempt. -/
def send_request (request : RequestBuilder) (responses : Nat → AttemptResult) :
    SendTrace :=
  sendRequestAux request responses 0 0

/-- Result of execute_request, parametric over the target type of the caller. -/
inductive ExecResult (T : Type) where
  | panicked : ExecResult T
  | ok : T → ExecResult T
  | err : Error → ExecResult T

/-- Observable trace of one execute_request call: how many decode attempts
were performed on the body (target-type decode plus, when reached, the
envelope decode) and the final result. -/
structure ExecTrace (T : Type) where
  decodeAttempts : Nat
  result : ExecResult T

/-- execute_request from src/api.rs: run send_request, read the body, try
to decode it as the target type; on success return it, otherwise try the
body as ApiXmlErrors and surface that as the business error when it
decodes, else wrap the original target-type decode error as
UnexpectedResponseError. The decoders stand for `from_str` at the two
types. -/
def execute_request {T : Type} (request : RequestBuilder)
    (responses : Nat → AttemptResult)
    (decodeT : String → Except String T)
    (decodeErrors : String → Except String ApiXmlErrors) : ExecTrace T :=
  match (send_request request responses).result with
  | .panicked => ⟨0, .panicked⟩
  | .err e => ⟨0, .err e⟩
  | .ok resp =>
    match decodeT resp.body with
    | .ok result => ⟨1, .ok result⟩
    | .error e =>
      match decodeErrors resp.body with
      | .ok apiError => ⟨2, .err (.ApiXmlError apiError)⟩
      | .error _ => ⟨2, .err (.UnexpectedResponseError e)⟩

/-- Unfolding lemma: with a cloneable request, a transport failure on the
current attempt stops the loop at once with a transport HttpError. -/
theorem sendRequestAux_transport (request : RequestBuilder)
    (responses : Nat → AttemptResult) (attempt retries : Nat)
    (hclone : request.cloneable = true)
    (h : responses attempt = .transportError) :
    sendRequestAux request responses attempt retries =
      ⟨1, [], .err (.HttpError .transport)⟩ := by
  rw [sendRequestAux]
  simp [hclone, h]

/-- Unfolding lemma: with a cloneable request, a 202 response while fewer
than 4 retries have happened sleeps 200ms times 2 to the retries and loops
with both counters advanced. -/
theorem sendRequestAux_accepted_step (request : RequestBuilder)
    (responses : Nat → AttemptResult) (attempt retries : Nat) (r : HttpResponse)
    (hclone : request.cloneable = true)
    (hresp : responses attempt = .response r)
    (hstatus : r.status = 202)
    (hret : retries < 4) :
    sendRequestAux request responses attempt retries =
      ⟨1 + (sendRequestAux request responses (attempt + 1) (retries + 1)).attempts,
       200 * 2 ^ retries ::
         (sendRequestAux request responses (attempt + 1) (retries + 1)).sleeps,
       (sendRequestAux request responses (attempt + 1) (retries + 1)).result⟩ := by
  rw [sendRequestAux]
  simp [hclone, hresp, hstatus, Nat.not_le.mpr hret]

/-- Unfolding lemma: with a cloneable request, a 202 response once 4
retries have happened stops the loop with MaxRetryError carrying the
counter. -/
theorem sendRequestAux_accepted_stop (request : RequestBuilder)
    (responses : Nat → AttemptResult) (attempt retries : Nat) (r : HttpResponse)
    (hclone : request.cloneable = true)
    (hresp : responses attempt = .response r)
    (hstatus : r.status = 202)
    (hret : 4 ≤ retries) :
    sendRequestAux request responses attempt retries =
      ⟨1, [], .err (.MaxRetryError retries)⟩ := by
  rw [sendRequestAux]
  simp [hclone, hresp, hstatus, hret]

/-- Unfolding lemma: with a cloneable request, a response whose status is
not 202 but lies in 400-599 stops the loop with a status HttpError. -/
theorem sendRequestAux_status_error (request : RequestBuilder)
    (responses : Nat → AttemptResult) (attempt retries : Nat) (r : HttpResponse)
    (hclone : request.cloneable = true)
    (hresp : responses attempt = .response r)
    (hstatus : r.status ≠ 202)
    (herr : 400 ≤ r.status ∧ r.status ≤ 599) :
    sendRequestAux request responses attempt retries =
      ⟨1, [], .err (.HttpError (.statusError r.status))⟩ := by
  rw [sendRequestAux]
  simp [hclone, hresp, hstatus, errorForStatus, herr]

/-- Unfolding lemma: with a cloneable request, a response whose status is
neither 202 nor in 400-599 stops the loop and returns the response. -/
theorem sendRequestAux_success (request : RequestBuilder)
    (responses : Nat → AttemptResult) (attempt retries : Nat) (r : HttpResponse)
    (hclone : request.cloneable = true)
    (hresp : responses attempt = .response r)
    (hstatus : r.status ≠ 202)
    (hok : ¬(400 ≤ r.status ∧ r.status ≤ 599)) :
    sendRequestAux request responses attempt retries = ⟨1, [], .ok r⟩ := by
  rw [sendRequestAux]
  simp [hclone, hresp, hstatus, errorForStatus, hok]

/-- C1: if the server responds 202 on every attempt, send_request makes
exactly 5 attempts, sleeps 200, 400, 800 and 1600 ms between consecutive
attempts with no sleep after the 5th, and fails with MaxRetryError
carrying a retry count of 4. -/
theorem send_request_all_accepted (request : RequestBuilder)
    (responses : Nat → AttemptResult)
    (hclone : request.cloneable = true)
    (h : ∀ n, ∃ r, responses n = .response r ∧ r.status = 202) :
    send_request request responses =
      ⟨5, [200, 400, 800, 1600], .err (.MaxRetryError 4)⟩ := by
  obtain ⟨r0, hr0, hs0⟩ := h 0
  obtain ⟨r1, hr1, hs1⟩ := h 1
  obtain ⟨r2, hr2, hs2⟩ := h 2
  obtain ⟨r3, hr3, hs3⟩ := h 3
  obtain ⟨r4, hr4, hs4⟩ := h 4
  unfold send_request
  rw [sendRequestAux_accepted_step request responses 0 0 r0 hclone hr0 hs0 (by omega),
    sendRequestAux_accepted_step request responses 1 1 r1 hclone hr1 hs1 (by omega),
    sendRequestAux_accepted_step request responses 2 2 r2 hclone hr2 hs2 (by omega),
    sendRequestAux_accepted_step request responses 3 3 r3 hclone hr3 hs3 (by omega),
    sendRequestAux_accepted_stop request responses 4 4 r4 hclone hr4 hs4 (by omega)]
  rfl

/-- Witness for C1 at a concrete request and a server that always answers
202. -/
theorem send_request_all_accepted_witness :
    send_request (build_request "https://boardgamegeek.com/xmlapi2" "some_endpoint" [])
        (fun _ => .response ⟨202, ""⟩) =
      ⟨5, [200, 400, 800, 1600], .err (.MaxRetryError 4)⟩ :=
  send_request_all_accepted _ _ rfl (fun _ => ⟨⟨202, ""⟩, rfl, rfl⟩)

/-- C2: a transport-level failure of the send, or a client or server error
status in 400-599 such as 500, on the first attempt ends send_request at
once with an HttpError: exactly one attempt, no retry, no sleep. -/
theorem send_request_terminal_error (request : RequestBuilder)
    (responses : Nat → AttemptResult)
    (hclone : request.cloneable = true)
    (h : responses 0 = .transportError ∨
      ∃ r, responses 0 = .response r ∧ 400 ≤ r.status ∧ r.status ≤ 599) :
    ∃ e, send_request request responses = ⟨1, [], .err (.HttpError e)⟩ := by
  unfold send_request
  rcases h with h | ⟨r, hr, herr⟩
  · exact ⟨.transport, sendRequestAux_transport request responses 0 0 hclone h⟩
  · exact ⟨.statusError r.status,
      sendRequestAux_status_error request responses 0 0 r hclone hr
        (by omega) herr⟩

/-- Witness for C2 at a concrete request and a server that answers 500 on
the first attempt. -/
theorem send_request_terminal_error_witness :
    ∃ e, send_request
        (build_request "https://boardgamegeek.com/xmlapi2" "some_endpoint" [])
        (fun _ => .response ⟨500, ""⟩) =
      ⟨1, [], .err (.HttpError e)⟩ :=
  send_request_terminal_error _ _ rfl
    (Or.inr ⟨⟨500, ""⟩, rfl, by decide, by decide⟩)

/-- C3: when the body decodes as the target type, execute_request returns
Ok with the decoded value after exactly one decode attempt, and a
successful target-type decode of the transported body is the only way
execute_request returns Ok. -/
theorem execute_request_decode_success {T : Type} (request : RequestBuilder)
    (responses : Nat → AttemptResult)
    (decodeT : String → Except String T)
    (decodeErrors : String → Except String ApiXmlErrors) :
    (∀ resp v, (send_request request responses).result = .ok resp →
      decodeT resp.body = Except.ok v →
      execute_request request responses decodeT decodeErrors = ⟨1, .ok v⟩) ∧
    (∀ w, (execute_request request responses decodeT decodeErrors).result = .ok w →
      ∃ resp, (send_request request responses).result = .ok resp ∧
        decodeT resp.body = Except.ok w) := by
  constructor
  · intro resp v hsend hdec
    unfold execute_request
    rw [hsend]
    simp [hdec]
  · intro w hw
    unfold execute_request at hw
    split at hw
    · simp at hw
    · simp at hw
    · rename_i resp heq
      split at hw
      · rename_i v hv
        simp at hw
        subst hw
        exact ⟨resp, heq, hv⟩
      · split at hw
        · simp at hw
        · simp at hw

/-- Witness for C3: a 200 response whose body decodes as the target. -/
theorem execute_request_decode_success_witness :
    execute_request (build_request "https://boardgamegeek.com/xmlapi2" "some_endpoint" [])
        (fun _ => .response ⟨200, "hello there"⟩)
      (fun s => Except.ok s) (fun _ => Except.error "not an envelope") =
      ⟨1, .ok "hello there"⟩ :=
  (execute_request_decode_success _ _ _ _).1 ⟨200, "hello there"⟩ "hello there"
    (by rw [send_request,
      sendRequestAux_success _ _ 0 0 ⟨200, "hello there"⟩ rfl rfl
        (by decide) (by decide)])
    rfl

/-- C4: when the body fails to decode as the target type but decodes as
the ApiXmlErrors envelope, execute_request fails with the business error
built from the envelope, never with UnexpectedResponseError. -/
theorem execute_request_error_envelope {T : Type} (request : RequestBuilder)
    (responses : Nat → AttemptResult)
    (decodeT : String → Except String T)
    (decodeErrors : String → Except String ApiXmlErrors)
    (resp : HttpResponse) (e : String) (env : ApiXmlErrors)
    (hsend : (send_request request responses).result = .ok resp)
    (hdecT : decodeT resp.body = Except.error e)
    (hdecE : decodeErrors resp.body = Except.ok env) :
    execute_request request responses decodeT decodeErrors =
      ⟨2, .err (.ApiXmlError env)⟩ ∧
    ∀ s, (execute_request request responses decodeT decodeErrors).result ≠
      .err (.UnexpectedResponseError s) := by
  have hmain : execute_request request responses decodeT decodeErrors =
      ⟨2, .err (.ApiXmlError env)⟩ := by
    unfold execute_request
    rw [hsend]
    simp [hdecT, hdecE]
  exact ⟨hmain, by intro s; rw [hmain]; simp⟩

/-- Witness for C4: the body decodes only as the error envelope. -/
theorem execute_request_error_envelope_witness :
    execute_request (build_request "https://boardgamegeek.com/xmlapi2" "some_endpoint" [])
        (fun _ => .response ⟨200, "<errors/>"⟩)
      (fun _ => (Except.error "bad target" : Except String String))
      (fun _ => Except.ok ⟨["Invalid username specified"]⟩) =
      ⟨2, .err (.ApiXmlError ⟨["Invalid username specified"]⟩)⟩ :=
  (execute_request_error_envelope _ _ _ _ ⟨200, "<errors/>"⟩ "bad target"
    ⟨["Invalid username specified"]⟩
    (by rw [send_request,
      sendRequestAux_success _ _ 0 0 ⟨200, "<errors/>"⟩ rfl rfl
        (by decide) (by decide)])
    rfl rfl).1

/-- C5: when the body decodes as neither the target type nor the
envelope, execute_request fails with UnexpectedResponseError carrying the
original target-type decode error; the envelope decode error never
appears in the result. -/
theorem execute_request_unexpected (request : RequestBuilder)
    (responses : Nat → AttemptResult) {T : Type}
    (decodeT : String → Except String T)
    (decodeErrors : String → Except String ApiXmlErrors)
    (resp : HttpResponse) (e e2 : String)
    (hsend : (send_request request responses).result = .ok resp)
    (hdecT : decodeT resp.body = Except.error e)
    (hdecE : decodeErrors resp.body = Except.error e2) :
    execute_request request responses decodeT decodeErrors =
      ⟨2, .err (.UnexpectedResponseError e)⟩ := by
  unfold execute_request
  rw [hsend]
  simp [hdecT, hdecE]

/-- Witness for C5: the body decodes as neither shape; the surfaced
diagnostic is the target-type one, not the envelope one. -/
theorem execute_request_unexpected_witness :
    execute_request (build_request "https://boardgamegeek.com/xmlapi2" "some_endpoint" [])
        (fun _ => .response ⟨200, "garbage"⟩)
      (fun _ => (Except.error "target decode failed" : Except String String))
      (fun _ => Except.error "envelope decode failed") =
      ⟨2, .err (.UnexpectedResponseError "target decode failed")⟩ :=
  execute_request_unexpected _ _ _ _ ⟨200, "garbage"⟩
    "target decode failed" "envelope decode failed"
    (by rw [send_request,
      sendRequestAux_success _ _ 0 0 ⟨200, "garbage"⟩ rfl rfl
        (by decide) (by decide)])
    rfl rfl

/-- Helper: with a cloneable request the expect branch on try_clone never
fires, so the loop never produces a panic, at any attempt index and any
retry count; the induction fuel bounds the remaining retries. -/
theorem sendRequestAux_no_panic (request : RequestBuilder)
    (responses : Nat → AttemptResult) (hclone : request.cloneable = true) :
    ∀ k retries attempt, 4 - retries ≤ k →
      (sendRequestAux request responses attempt retries).result ≠ .panicked := by
  intro k
  induction k with
  | zero =>
    intro retries attempt hk
    rw [sendRequestAux]
    split
    · simp_all
    · split
      · simp
      · split
        · split
          · simp
          · omega
        · split <;> simp
  | succ k ih =>
    intro retries attempt hk
    rw [sendRequestAux]
    split
    · simp_all
    · split
      · simp
      · split
        · split
          · simp
          · exact ih (retries + 1) (attempt + 1) (by omega)
        · split <;> simp

/-- An error value is one of the four specific classifications of the
Error enum of the crate. -/
def classified (e : Error) : Prop :=
  (∃ re, e = .HttpError re) ∨ (∃ n, e = .MaxRetryError n) ∨
    (∃ env, e = .ApiXmlError env) ∨ (∃ s, e = .UnexpectedResponseError s)

/-- Helper: every value of the Error enum is classified. -/
theorem classified_of_error (e : Error) : classified e := by
  cases e with
  | HttpError re => exact Or.inl ⟨re, rfl⟩
  | MaxRetryError n => exact Or.inr (Or.inl ⟨n, rfl⟩)
  | UnexpectedResponseError s => exact Or.inr (Or.inr (Or.inr ⟨s, rfl⟩))
  | ApiXmlError env => exact Or.inr (Or.inr (Or.inl ⟨env, rfl⟩))

/-- C6: for a cloneable request, execute_request always produces exactly
one of a typed Ok value or an Err holding one of the four classified
error variants, never a panic and never both or neither. -/
theorem execute_request_total {T : Type} (request : RequestBuilder)
    (responses : Nat → AttemptResult)
    (decodeT : String → Except String T)
    (decodeErrors : String → Except String ApiXmlErrors)
    (hclone : request.cloneable = true) :
    (∃ v, (execute_request request responses decodeT decodeErrors).result = .ok v ∧
      ∀ e, (execute_request request responses decodeT decodeErrors).result ≠ .err e) ∨
    (∃ e, (execute_request request responses decodeT decodeErrors).result = .err e ∧
      classified e ∧
      ∀ v, (execute_request request responses decodeT decodeErrors).result ≠ .ok v) := by
  have hnp : (send_request request responses).result ≠ .panicked :=
    sendRequestAux_no_panic request responses hclone 4 0 0 (by omega)
  unfold execute_request
  cases hs : (send_request request responses).result with
  | panicked => exact absurd hs hnp
  | err e =>
    right
    refine ⟨e, ?_, classified_of_error e, ?_⟩ <;> simp [hs]
  | ok resp =>
    cases hd : decodeT resp.body with
    | ok v =>
      left
      refine ⟨v, ?_, ?_⟩ <;> simp [hs, hd]
    | error e =>
      cases he : decodeErrors resp.body with
      | ok env =>
        right
        refine ⟨.ApiXmlError env, ?_, classified_of_error _, ?_⟩ <;> simp [hs, hd, he]
      | error e2 =>
        right
        refine ⟨.UnexpectedResponseError e, ?_, classified_of_error _, ?_⟩ <;>
          simp [hs, hd, he]

/-- Witness for C6 at a concrete request, server and decoders. -/
theorem execute_request_total_witness :
    (∃ v, (execute_request
        (build_request "https://boardgamegeek.com/xmlapi2" "some_endpoint" [])
        (fun _ => .response ⟨200, "hello there"⟩)
        (fun s => Except.ok s)
        (fun _ => Except.error "not an envelope")).result = .ok v ∧
      ∀ e, (execute_request
        (build_request "https://boardgamegeek.com/xmlapi2" "some_endpoint" [])
        (fun _ => .response ⟨200, "hello there"⟩)
        (fun s => Except.ok s)
        (fun _ => Except.error "not an envelope")).result ≠ .err e) ∨
    (∃ e, (execute_request
        (build_request "https://boardgamegeek.com/xmlapi2" "some_endpoint" [])
        (fun _ => .response ⟨200, "hello there"⟩)
        (fun s => Except.ok s)
        (fun _ => Except.error "not an envelope")).result = .err e ∧
      classified e ∧
      ∀ v, (execute_request
        (build_request "https://boardgamegeek.com/xmlapi2" "some_endpoint" [])
        (fun _ => .response ⟨200, "hello there"⟩)
        (fun s => Except.ok s)
        (fun _ => Except.error "not an envelope")).result ≠ .ok v) :=
  execute_request_total _ _ _ _ rfl

/-- C7: two logical calls are independent: the outcome of send_request is
a function of the request and the per-attempt server outcomes alone, and
every call enters the loop with its own retry counter initialised to 0,
so the same call run twice yields the same trace. -/
theorem send_request_independent (request : RequestBuilder)
    (responses1 responses2 : Nat → AttemptResult)
    (h : ∀ n, responses1 n = responses2 n) :
    send_request request responses1 = send_request request responses2 ∧
    send_request request responses1 = sendRequestAux request responses1 0 0 := by
  have hfun : responses1 = responses2 := funext h
  subst hfun
  exact ⟨rfl, rfl⟩

/-- Witness for C7 at a concrete request and two pointwise-equal server
behaviours. -/
theorem send_request_independent_witness :
    send_request (build_request "https://boardgamegeek.com/xmlapi2" "some_endpoint" [])
        (fun _ => .response ⟨200, "hello there"⟩) =
      send_request (build_request "https://boardgamegeek.com/xmlapi2" "some_endpoint" [])
        (fun _ => .response ⟨199 + 1, "hello there"⟩) ∧
    send_request (build_request "https://boardgamegeek.com/xmlapi2" "some_endpoint" [])
        (fun _ => .response ⟨200, "hello there"⟩) =
      sendRequestAux (build_request "https://boardgamegeek.com/xmlapi2" "some_endpoint" [])
        (fun _ => .response ⟨200, "hello there"⟩) 0 0 :=
  send_request_independent _ _ _ (fun _ => rfl)

/-- C8: a cloneable request never reaches the clone-failure branch, so no
panic is possible; a request violating the precondition makes
send_request panic before any send, producing no typed error value. -/
theorem send_request_clone_precondition (request : RequestBuilder)
    (responses : Nat → AttemptResult) :
    (request.cloneable = true →
      ∀ attempt retries,
        (sendRequestAux request responses attempt retries).result ≠ .panicked) ∧
    (request.cloneable = false →
      send_request request responses = ⟨0, [], .panicked⟩) := by
  constructor
  · intro hclone attempt retries
    exact sendRequestAux_no_panic request responses hclone (4 - retries) retries attempt
      le_rfl
  · intro hclone
    rw [send_request, sendRequestAux]
    simp [hclone]

/-- Witness for C8: a built GET request satisfies the precondition and
never panics; a hand-made non-cloneable request panics at once. -/
theorem send_request_clone_precondition_witness :
    (sendRequestAux (build_request "https://boardgamegeek.com/xmlapi2" "some_endpoint" [])
        (fun _ => .response ⟨200, ""⟩) 0 0).result ≠ .panicked ∧
    send_request ⟨"GET", "https://boardgamegeek.com/xmlapi2/some_endpoint", [], false⟩
        (fun _ => .response ⟨200, ""⟩) = ⟨0, [], .panicked⟩ :=
  ⟨(send_request_clone_precondition
      (build_request "https://boardgamegeek.com/xmlapi2" "some_endpoint" [])
      (fun _ => .response ⟨200, ""⟩)).1 rfl 0 0,
    (send_request_clone_precondition
      ⟨"GET", "https://boardgamegeek.com/xmlapi2/some_endpoint", [], false⟩
      (fun _ => .response ⟨200, ""⟩)).2 rfl⟩

/-- C9: a response whose status is neither 202 nor in the 400-599 error
range ends the loop at once with Ok carrying that raw response, whatever
the attempt index and retry count, so informational and redirection
statuses count as success; at attempt 0 this is the whole send_request
call. -/
theorem send_request_non_error_status (request : RequestBuilder)
    (responses : Nat → AttemptResult) (attempt retries : Nat) (r : HttpResponse)
    (hclone : request.cloneable = true)
    (hresp : responses attempt = .response r)
    (h202 : r.status ≠ 202)
    (hok : ¬(400 ≤ r.status ∧ r.status ≤ 599)) :
    sendRequestAux request responses attempt retries = ⟨1, [], .ok r⟩ ∧
    (responses 0 = .response r → send_request request responses = ⟨1, [], .ok r⟩) := by
  refine ⟨sendRequestAux_success request responses attempt retries r hclone hresp h202 hok,
    fun h0 => ?_⟩
  rw [send_request]
  exact sendRequestAux_success request responses 0 0 r hclone h0 h202 hok

/-- Witness for C9 at a redirection status 301. -/
theorem send_request_non_error_status_witness :
    sendRequestAux (build_request "https://boardgamegeek.com/xmlapi2" "some_endpoint" [])
        (fun _ => .response ⟨301, "moved"⟩) 0 0 = ⟨1, [], .ok ⟨301, "moved"⟩⟩ ∧
    ((fun (_ : Nat) => AttemptResult.response ⟨301, "moved"⟩) 0 =
        AttemptResult.response ⟨301, "moved"⟩ →
      send_request (build_request "https://boardgamegeek.com/xmlapi2" "some_endpoint" [])
        (fun _ => .response ⟨301, "moved"⟩) = ⟨1, [], .ok ⟨301, "moved"⟩⟩) :=
  send_request_non_error_status _ _ 0 0 ⟨301, "moved"⟩ rfl rfl
    (by decide) (by decide)

/-- C10: build_request forms the URL as base, a literal slash, then the
endpoint, keeps exactly the given query pairs in order, always yields a
cloneable GET, performs no normalisation (a base ending in a slash gives
a double slash, an empty endpoint a trailing slash), and depends on
nothing but its arguments. -/
theorem build_request_shape (base endpoint : String)
    (query : List (String × String)) :
    (build_request base endpoint query).method = "GET" ∧
    (build_request base endpoint query).url = base ++ "/" ++ endpoint ∧
    (build_request base endpoint query).query = query ∧
    (build_request base endpoint query).cloneable = true ∧
    (build_request (base ++ "/") endpoint query).url = base ++ "/" ++ "/" ++ endpoint ∧
    (build_request base "" query).url = base ++ "/" := by
  refine ⟨rfl, rfl, rfl, rfl, rfl, ?_⟩
  show base ++ "/" ++ "" = base ++ "/"
  simp

end Arnak
